import Mathlib

/-!
Verification of the Shopify integration subsystem of the stock-tracker
repository: a shallow embedding of the sync engine
(src/services/shopifyIntegration.ts), the webhook verifier/dispatcher
(the Shopify webhook route handler), and the sale route
(src/app/api/sales/route.ts), together with proofs of the spec's
testable properties.

Modelling conventions:
* Database ids and Shopify remote ids are MongoDB ObjectId / numeric-id
  strings in the source; both are modelled as Nat.  The source converts
  Shopify's numeric ids to decimal strings with toString() and back with
  parseInt(); these conversions are mutually inverse, so the string
  encoding of remote ids is elided and external-id values are stored as
  Nat.  Where the source builds visible strings from a remote id
  (barcode synthesis in the importer) the decimal rendering Nat.repr is
  used explicitly.
* Prisma's Float fields (price) carry no arithmetic in the verified
  paths beyond multiplication in the sale total; they are modelled as
  Int.
* The external platform (shopify-api-node client) is modelled as a
  RemoteState holding the remote catalog, the inventory levels, and a
  log of the REST calls the code issues.  The unique index that Prisma
  derives from the schema's "barcode String? @unique" is modelled by
  making create/update fail exactly when a non-null barcode would be
  duplicated, mirroring the P2002 error those calls throw.
-/

/-- One local product row (Prisma model Product).  The productType and
sku relations are flattened to the fields the sync engine reads:
productTypeId references the ProductType table, and sku carries the
related SKU's code when present. -/
structure Product where
  id : Nat
  name : String
  description : String
  barcode : Option String
  price : Int
  stockCount : Int
  imageUrl : Option String
  productTypeId : Nat
  sku : Option String
  externalIds : List (String × Nat)
  deriving DecidableEq, Repr

/-- One ProductType row. -/
structure ProductType where
  id : Nat
  name : String
  description : String
  deriving DecidableEq, Repr

/-- One Sale row (fields the sale route writes). -/
structure Sale where
  productId : Nat
  quantity : Int
  totalPrice : Int
  deriving DecidableEq, Repr

/-- The local MongoDB state visible to the verified code. -/
structure LocalDB where
  products : List Product
  productTypes : List ProductType
  sales : List Sale
  nextProductId : Nat
  nextTypeId : Nat
  deriving DecidableEq, Repr

/-- Shopify connection settings blob (ShopifySettings in src/types). -/
structure ShopifySettings where
  shopName : String
  apiKey : String
  apiSecret : String
  apiVersion : String
  accessToken : String
  deriving DecidableEq, Repr

/-- The IntegrationSettings row for integrationType "shopify". -/
structure IntegrationSettings where
  isEnabled : Bool
  settings : ShopifySettings
  deriving DecidableEq, Repr

/-- A variant of a remote (Shopify-side) product. -/
structure RemoteVariant where
  price : Int
  sku : String
  barcode : Option String
  inventory_quantity : Int
  inventory_item_id : Nat
  deriving DecidableEq, Repr

/-- A product as stored on the remote platform. -/
structure RemoteProduct where
  id : Nat
  title : String
  body_html : String
  vendor : String
  product_type : Option String
  variants : List RemoteVariant
  image : Option String
  deriving DecidableEq, Repr

/-- One remote inventory level: the platform stores inventory per
(inventory item, location). -/
structure InventoryLevel where
  inventory_item_id : Nat
  location_id : Nat
  available : Int
  deriving DecidableEq, Repr

/-- A variant payload sent by mapToShopifyProduct. -/
structure ShopifyVariantData where
  price : Int
  sku : String
  inventory_quantity : Int
  deriving DecidableEq, Repr

/-- The product payload built by mapToShopifyProduct and sent to the
remote create/update calls. -/
structure ShopifyProductData where
  title : String
  body_html : String
  vendor : String
  product_type : String
  barcode : String
  variants : List ShopifyVariantData
  images : List String
  deriving DecidableEq, Repr

/-- REST calls the code issues against the remote platform, recorded in
the order they are made. -/
inductive RemoteCall where
  | productCreate (data : ShopifyProductData)
  | productUpdate (id : Nat) (data : ShopifyProductData)
  | productGet (id : Nat)
  | productDelete (id : Nat)
  | productList (limit : Nat)
  | inventoryList (inventoryItemId : Nat)
  | inventorySet (inventoryItemId locationId : Nat) (available : Int)
  | shopGet
  deriving DecidableEq, Repr

/-- The remote platform's state plus the log of calls received. -/
structure RemoteState where
  products : List RemoteProduct
  inventoryLevels : List InventoryLevel
  nextId : Nat
  nextItemId : Nat
  calls : List RemoteCall
  deriving DecidableEq, Repr

/-- Lookup in an external-ids mapping (reading exIds[system]). -/
def extLookup (system : String) : List (String × Nat) → Option Nat
  | [] => none
  | (k, v) :: rest => if k = system then some v else extLookup system rest

/-- Setting a key in an external-ids mapping (JS object assignment:
other keys kept, the named key bound to the new value). -/
def extSet (system : String) (v : Nat) (m : List (String × Nat)) : List (String × Nat) :=
  (m.filter (fun e => e.1 ≠ system)) ++ [(system, v)]

/-- JS truthy-or-default on an optional string: the || operator treats
the empty string like null. -/
def orDefault (o : Option String) (d : String) : String :=
  match o with
  | some s => if s = "" then d else s
  | none => d

/-- Replace every product row with the given id (prisma.product.update
where id). -/
def LocalDB.updateProduct (db : LocalDB) (pid : Nat) (f : Product → Product) : LocalDB :=
  { db with products := db.products.map (fun q => if q.id = pid then f q else q) }

/-- Does some product row hold this (non-null) barcode? -/
def LocalDB.barcodeTaken (db : LocalDB) (b : String) : Bool :=
  db.products.any (fun q => q.barcode = some b)

/-- Does a DIFFERENT product row (id other than pid) hold this barcode?
This is the condition under which a prisma update writing the barcode
violates the unique index. -/
def LocalDB.barcodeTakenByOther (db : LocalDB) (pid : Nat) (b : String) : Bool :=
  db.products.any (fun q => q.id ≠ pid ∧ q.barcode = some b)

/-- Append a call to the remote log. -/
def RemoteState.logCall (r : RemoteState) (c : RemoteCall) : RemoteState :=
  { r with calls := r.calls ++ [c] }

/-- Remote product creation: the platform assigns the next product id,
materialises the sent payload (fresh inventory-item ids for its
variants), and returns the new id. -/
def RemoteState.createProduct (r : RemoteState) (d : ShopifyProductData) :
    RemoteState × Nat :=
  let pid := r.nextId
  let vs := d.variants.enum.map (fun iv =>
    { price := iv.2.price, sku := iv.2.sku, barcode := none,
      inventory_quantity := iv.2.inventory_quantity,
      inventory_item_id := r.nextItemId + iv.1 : RemoteVariant })
  ({ products := r.products ++
      [{ id := pid, title := d.title, body_html := d.body_html,
         vendor := d.vendor, product_type := some d.product_type,
         variants := vs, image := d.images.head? }],
     inventoryLevels := r.inventoryLevels,
     nextId := pid + 1,
     nextItemId := r.nextItemId + d.variants.length,
     calls := r.calls ++ [RemoteCall.productCreate d] }, pid)

/-- Remote product update: overwrite the stored product's descriptive
fields with the sent payload.  (The platform-side merge of variant rows
keeps the stored inventory-item ids; no verified property observes the
merged variants, so they are left as stored.) -/
def RemoteState.updateProduct (r : RemoteState) (rid : Nat) (d : ShopifyProductData) :
    RemoteState :=
  { r with
    products := r.products.map (fun p =>
      if p.id = rid then
        { p with title := d.title, body_html := d.body_html,
                 vendor := d.vendor, product_type := some d.product_type,
                 image := d.images.head? }
      else p),
    calls := r.calls ++ [RemoteCall.productUpdate rid d] }

/-- Remote product read (shopify.product.get); logged, returns the
product when present. -/
def RemoteState.getProduct (r : RemoteState) (rid : Nat) :
    RemoteState × Option RemoteProduct :=
  (r.logCall (RemoteCall.productGet rid),
   r.products.find? (fun p => p.id = rid))

/-- Remote inventory write (shopify.inventoryLevel.set): update the
level at (item, location), creating it if absent. -/
def RemoteState.setInventoryLevel (r : RemoteState) (item loc : Nat) (avail : Int) :
    RemoteState :=
  let present := r.inventoryLevels.any
    (fun l => l.inventory_item_id = item ∧ l.location_id = loc)
  { r with
    inventoryLevels :=
      if present then
        r.inventoryLevels.map (fun l =>
          if l.inventory_item_id = item ∧ l.location_id = loc then
            { l with available := avail }
          else l)
      else r.inventoryLevels ++
        [{ inventory_item_id := item, location_id := loc, available := avail }],
    calls := r.calls ++ [RemoteCall.inventorySet item loc avail] }

/-- getShopifyClient: a client is produced exactly when a settings row
exists, the integration is enabled, and shopName and accessToken are
truthy (non-empty). -/
def getShopifyClient (cfg : Option IntegrationSettings) : Bool :=
  match cfg with
  | none => false
  | some s => s.isEnabled && s.settings.shopName ≠ "" && s.settings.accessToken ≠ ""

/-- Resolve the name of a product's productType relation, as preloaded
by the include clauses in the callers. -/
def LocalDB.typeNameOf (db : LocalDB) (p : Product) : Option String :=
  (db.productTypes.find? (fun t => t.id = p.productTypeId)).map (fun t => t.name)

/-- mapToShopifyProduct: map the local product to the Shopify payload. -/
def mapToShopifyProduct (typeName : Option String) (p : Product) : ShopifyProductData :=
  { title := p.name
    body_html := p.description
    vendor := "Default Vendor"
    product_type := orDefault typeName "Default"
    barcode := (p.barcode).getD ""
    variants := [{ price := p.price, sku := (p.sku).getD "",
                   inventory_quantity := p.stockCount }]
    images := match p.imageUrl with
      | some u => [u]
      | none => [] }

/-- Outcome of one syncProductToShopify call, for stating which path
ran; the Bool result of the source function is recovered by isOk. -/
inductive SyncOutcome where
  | noClient
  | created (remoteId : Nat)
  | updated (remoteId : Nat)
  deriving DecidableEq, Repr

def SyncOutcome.isOk : SyncOutcome → Bool
  | SyncOutcome.noClient => false
  | SyncOutcome.created _ => true
  | SyncOutcome.updated _ => true

/-- syncProductToShopify: push one local product to the remote
platform.  If the product's external-ids mapping holds a shopify id the
stored remote product is updated; otherwise a remote product is created
and the assigned id is persisted into the product's external-ids. -/
def syncProductToShopify (cfg : Option IntegrationSettings) (db : LocalDB)
    (remote : RemoteState) (p : Product) : LocalDB × RemoteState × SyncOutcome :=
  if getShopifyClient cfg = false then (db, remote, SyncOutcome.noClient)
  else
    let data := mapToShopifyProduct (db.typeNameOf p) p
    match extLookup "shopify" p.externalIds with
    | some rid => (db, remote.updateProduct rid data, SyncOutcome.updated rid)
    | none =>
      let (remote1, newId) := remote.createProduct data
      let db1 := db.updateProduct p.id
        (fun q => { q with externalIds := extSet "shopify" newId p.externalIds })
      (db1, remote1, SyncOutcome.created newId)

/-- syncInventoryToShopify: propagate a stock count for an
already-linked product by resolving the first variant's inventory item,
then its location, then setting the level there. -/
def syncInventoryToShopify (cfg : Option IntegrationSettings) (db : LocalDB)
    (remote : RemoteState) (productId : Nat) (quantity : Int) :
    RemoteState × Bool :=
  if getShopifyClient cfg = false then (remote, false)
  else
    match db.products.find? (fun q => q.id = productId) with
    | none => (remote, false)
    | some p =>
      match extLookup "shopify" p.externalIds with
      | none => (remote, false)
      | some rid =>
        let (remote1, rp?) := remote.getProduct rid
        match rp? with
        | none => (remote1, false)
        | some rp =>
          match rp.variants.head? with
          | none => (remote1, false)
          | some v =>
            let item := v.inventory_item_id
            let remote2 := remote1.logCall (RemoteCall.inventoryList item)
            match remote1.inventoryLevels.find?
                (fun l => l.inventory_item_id = item) with
            | none => (remote2, false)
            | some l =>
              (remote2.setInventoryLevel item l.location_id quantity, true)

/-- The JSON body of a webhook response: either the error object or the
success acknowledgement. -/
inductive WebhookBody where
  | errorMsg (msg : String)
  | success
  deriving DecidableEq, Repr

/-- An HTTP response from the webhook route. -/
structure WebhookResponse where
  status : Nat
  body : WebhookBody
  deriving DecidableEq, Repr

/-- An inbound webhook request.  rawBody is the exact byte string the
signature is computed over; dataId, dataTitle and dataBodyHtml are the
id, title and body_html fields of its JSON parse (JSON decoding is the
platform library and is modelled as these accessors). -/
structure WebhookRequest where
  hmacHeader : Option String
  shopDomain : Option String
  topic : Option String
  rawBody : String
  dataId : Nat
  dataTitle : String
  dataBodyHtml : String
  deriving DecidableEq, Repr

/-- handleProductUpdate: locate the first local product whose
external-ids mapping records the notification's shopify id; if found,
overwrite its name and description from the payload; otherwise leave
the store untouched. -/
def handleProductUpdate (db : LocalDB) (sid : Nat) (title bodyHtml : String) : LocalDB :=
  match db.products.find? (fun p => extLookup "shopify" p.externalIds = some sid) with
  | none => db
  | some p => db.updateProduct p.id
      (fun q => { q with name := title, description := bodyHtml })

/-- handleProductDelete: locate the first local product linked to the
shopify id; if found, clear its external-ids mapping (unlink) without
deleting the row. -/
def handleProductDelete (db : LocalDB) (sid : Nat) : LocalDB :=
  match db.products.find? (fun p => extLookup "shopify" p.externalIds = some sid) with
  | none => db
  | some p => db.updateProduct p.id (fun q => { q with externalIds := [] })

/-- The Shopify webhook route handler (POST).  hmac is the keyed
message-authentication digest (crypto.createHmac sha256 + base64), an
external primitive the handler is parametric in; the handler compares
its output on (secret, raw body) against the x-shopify-hmac-sha256
header.  Returns the response together with the resulting local store. -/
def webhookPOST (hmac : String → String → String)
    (cfg : Option IntegrationSettings) (db : LocalDB) (req : WebhookRequest) :
    WebhookResponse × LocalDB :=
  match cfg with
  | none =>
    ({ status := 400, body := WebhookBody.errorMsg "Shopify integration not enabled" }, db)
  | some s =>
    if s.isEnabled = false then
      ({ status := 400, body := WebhookBody.errorMsg "Shopify integration not enabled" }, db)
    else
      match req.hmacHeader, req.shopDomain with
      | some h, some _ =>
        let hash := hmac s.settings.apiSecret req.rawBody
        if hash ≠ h then
          ({ status := 401, body := WebhookBody.errorMsg "Invalid webhook signature" }, db)
        else
          let db1 :=
            match req.topic with
            | some t =>
              if t = "products/update" then
                handleProductUpdate db req.dataId req.dataTitle req.dataBodyHtml
              else if t = "products/delete" then
                handleProductDelete db req.dataId
              else
                db
            | none => db
          ({ status := 200, body := WebhookBody.success }, db1)
      | _, _ =>
        ({ status := 401, body := WebhookBody.errorMsg "Invalid webhook request" }, db)

/-- The result of the sale route: HTTP status plus the resulting local
and remote states. -/
structure SaleResult where
  status : Nat
  db : LocalDB
  remote : RemoteState
  deriving DecidableEq, Repr

/-- The sale route handler (POST /api/sales).  Runs the transaction
(stock check, sale row, stock decrement) and then, when the integration
is enabled, pushes the UPDATED PRODUCT through syncProductToShopify —
the full single-product sync, not the inventory-only sync.  Sync errors
never affect the response. -/
def salesPOST (cfg : Option IntegrationSettings) (db : LocalDB)
    (remote : RemoteState) (productId : Nat) (quantity : Int) : SaleResult :=
  if productId = 0 ∨ quantity < 1 then
    { status := 400, db := db, remote := remote }
  else
    match db.products.find? (fun q => q.id = productId) with
    | none => { status := 500, db := db, remote := remote }
    | some p =>
      if p.stockCount < quantity then
        { status := 400, db := db, remote := remote }
      else
        let totalPrice := p.price * quantity
        let saleRow : Sale :=
          { productId := productId, quantity := quantity, totalPrice := totalPrice }
        let db1 := { db with sales := db.sales ++ [saleRow] }
        let p1 := { p with stockCount := p.stockCount - quantity }
        let db2 := db1.updateProduct productId
          (fun q => { q with stockCount := p.stockCount - quantity })
        let enabled := match cfg with
          | some s => s.isEnabled
          | none => false
        if enabled then
          let (db3, remote1, _) := syncProductToShopify cfg db2 remote p1
          { status := 201, db := db3, remote := remote1 }
        else
          { status := 201, db := db2, remote := remote }

/-- The effective barcode of a remote product in the importer:
shopifyProduct.variants[0]?.barcode || null (the || operator maps the
empty string to null as well). -/
def remoteBarcode (rp : RemoteProduct) : Option String :=
  match rp.variants.head? with
  | none => none
  | some v =>
    match v.barcode with
    | none => none
    | some b => if b = "" then none else some b

/-- The price the importer reads: parseFloat(variants[0]?.price or 0). -/
def remotePrice (rp : RemoteProduct) : Int :=
  match rp.variants.head? with
  | none => 0
  | some v => v.price

/-- Resolve or create the ProductType row named after the remote
product's type (default "General"). -/
def getOrCreateType (db : LocalDB) (name : String) : LocalDB × Nat :=
  match db.productTypes.find? (fun t => t.name = name) with
  | some t => (db, t.id)
  | none =>
    let tid := db.nextTypeId
    ({ db with
        productTypes := db.productTypes ++
          [{ id := tid, name := name,
             description := "Imported from Shopify: " ++ name }],
        nextTypeId := tid + 1 }, tid)

/-- Resolve the remote stock of a product: list the inventory levels of
the first variant's inventory item and read the first level's
available, defaulting to 0 on any miss.  The listing call is logged
when the item id is truthy (nonzero). -/
def remoteStock (remote : RemoteState) (rp : RemoteProduct) : Int × RemoteState :=
  match rp.variants.head? with
  | none => (0, remote)
  | some v =>
    if v.inventory_item_id = 0 then (0, remote)
    else
      let remote1 := remote.logCall (RemoteCall.inventoryList v.inventory_item_id)
      match remote.inventoryLevels.find?
          (fun l => l.inventory_item_id = v.inventory_item_id) with
      | none => (0, remote1)
      | some l => (l.available, remote1)

/-- What happened to one remote product inside the import loop; each
outcome bumps exactly one of the three counters. -/
inductive ImportOutcome where
  | imported
  | updated
  | failed
  deriving DecidableEq, Repr

/-- The importer's counters. -/
structure ImportCounters where
  imported : Nat
  updated : Nat
  failed : Nat
  deriving DecidableEq, Repr

def ImportCounters.bump (c : ImportCounters) : ImportOutcome → ImportCounters
  | ImportOutcome.imported => { c with imported := c.imported + 1 }
  | ImportOutcome.updated => { c with updated := c.updated + 1 }
  | ImportOutcome.failed => { c with failed := c.failed + 1 }

/-- The barcode the importer picks for a newly created product: the
remote barcode verbatim when no local row holds it, the remote barcode
suffixed with "-" and the remote id when one does, and a value
synthesized from the remote id when the remote supplied no barcode. -/
def resolvedImportBarcode (db : LocalDB) (rp : RemoteProduct) : String :=
  match remoteBarcode rp with
  | some b => if db.barcodeTaken b then b ++ "-" ++ Nat.repr rp.id else b
  | none => "shopify-" ++ Nat.repr rp.id

/-- One iteration of the import loop over a remote product: match by
stored shopify id, resolve the product type, resolve remote stock, then
update the matched product or create a fresh one with a
uniqueness-respecting barcode.  A create or update that would duplicate
a non-null barcode throws in Prisma and is counted as failed (the
product-type row resolved earlier in the iteration is kept, as the loop
has no transaction). -/
def importStep (db : LocalDB) (remote : RemoteState) (rp : RemoteProduct) :
    LocalDB × RemoteState × ImportOutcome :=
  let shopifyId := rp.id
  let existing := db.products.find?
    (fun p => extLookup "shopify" p.externalIds = some shopifyId)
  let typeName := orDefault rp.product_type "General"
  let db1 := (getOrCreateType db typeName).1
  let typeId := (getOrCreateType db typeName).2
  let stockCount := (remoteStock remote rp).1
  let remote1 := (remoteStock remote rp).2
  match existing with
  | some p =>
    let newBarcode := remoteBarcode rp
    let conflict := match newBarcode with
      | some b => db1.barcodeTakenByOther p.id b
      | none => false
    if conflict then (db1, remote1, ImportOutcome.failed)
    else
      (db1.updateProduct p.id (fun q =>
        { q with name := rp.title, description := rp.body_html,
                 price := remotePrice rp, stockCount := stockCount,
                 barcode := newBarcode,
                 externalIds := [("shopify", shopifyId)] }),
       remote1, ImportOutcome.updated)
  | none =>
    let uniqueBarcode := resolvedImportBarcode db1 rp
    if db1.barcodeTaken uniqueBarcode then (db1, remote1, ImportOutcome.failed)
    else
      let newP : Product :=
        { id := db1.nextProductId, name := rp.title,
          description := rp.body_html, barcode := some uniqueBarcode,
          price := remotePrice rp, stockCount := stockCount,
          imageUrl := rp.image, productTypeId := typeId, sku := none,
          externalIds := [("shopify", shopifyId)] }
      ({ db1 with products := db1.products ++ [newP],
                  nextProductId := db1.nextProductId + 1 },
       remote1, ImportOutcome.imported)

/-- The importer's sequential loop over the fetched page. -/
def importLoop (db : LocalDB) (remote : RemoteState) :
    List RemoteProduct → LocalDB × RemoteState × ImportCounters
  | [] => (db, remote, { imported := 0, updated := 0, failed := 0 })
  | rp :: rest =>
    let (db1, remote1, o) := importStep db remote rp
    let (db2, remote2, c) := importLoop db1 remote1 rest
    (db2, remote2, c.bump o)

/-- The result record of importProductsFromShopify. -/
structure ImportResult where
  success : Bool
  total : Nat
  imported : Nat
  updated : Nat
  failed : Nat
  deriving DecidableEq, Repr

/-- importProductsFromShopify: fetch one page of at most 50 remote
products (shopify.product.list with limit 50) and reconcile each into
the local store. -/
def importProductsFromShopify (cfg : Option IntegrationSettings)
    (db : LocalDB) (remote : RemoteState) :
    ImportResult × LocalDB × RemoteState :=
  if getShopifyClient cfg = false then
    ({ success := false, total := 0, imported := 0, updated := 0, failed := 0 },
     db, remote)
  else
    let page := remote.products.take 50
    let remote0 := remote.logCall (RemoteCall.productList 50)
    let (db1, remote1, c) := importLoop db remote0 page
    ({ success := true, total := page.length, imported := c.imported,
       updated := c.updated, failed := c.failed }, db1, remote1)

/-! Concrete fixtures used by witnesses and counterexamples. -/

/-- An enabled settings row with complete credentials. -/
def exSettings : IntegrationSettings :=
  { isEnabled := true,
    settings := { shopName := "shop", apiKey := "key", apiSecret := "sec",
                  apiVersion := "2023-10", accessToken := "tok" } }

/-- A concrete stand-in for the HMAC-SHA256-base64 primitive, used only
to instantiate witnesses; every webhook theorem is parametric in the
digest function. -/
def exHmac : String → String → String := fun key body => key ++ "|" ++ body

/-- A local store with one unlinked product whose barcode is "B". -/
def exDbB : LocalDB :=
  { products := [{ id := 1, name := "P1", description := "", barcode := some "B",
                   price := 5, stockCount := 2, imageUrl := none,
                   productTypeId := 1, sku := none, externalIds := [] }],
    productTypes := [{ id := 1, name := "General", description := "" }],
    sales := [], nextProductId := 2, nextTypeId := 2 }

/-- A local store holding barcodes "B" and "B-1". -/
def exDbBB1 : LocalDB :=
  { products := [{ id := 1, name := "P1", description := "", barcode := some "B",
                   price := 5, stockCount := 2, imageUrl := none,
                   productTypeId := 1, sku := none, externalIds := [] },
                 { id := 2, name := "P2", description := "", barcode := some "B-1",
                   price := 5, stockCount := 2, imageUrl := none,
                   productTypeId := 1, sku := none, externalIds := [] }],
    productTypes := [{ id := 1, name := "General", description := "" }],
    sales := [], nextProductId := 3, nextTypeId := 2 }

/-- A remote product with id 1 whose variant carries barcode "B". -/
def exRpB : RemoteProduct :=
  { id := 1, title := "RP", body_html := "desc", vendor := "v",
    product_type := some "General",
    variants := [{ price := 9, sku := "s", barcode := some "B",
                   inventory_quantity := 4, inventory_item_id := 77 }],
    image := none }

/-- A remote product with id 1 whose variant carries the fresh barcode
"F". -/
def exRpF : RemoteProduct :=
  { id := 1, title := "RP", body_html := "desc", vendor := "v",
    product_type := some "General",
    variants := [{ price := 9, sku := "s", barcode := some "F",
                   inventory_quantity := 4, inventory_item_id := 77 }],
    image := none }

/-- A remote state whose catalog is exactly the given product, with one
inventory level for item 77. -/
def exRemoteWith (rp : RemoteProduct) : RemoteState :=
  { products := [rp],
    inventoryLevels := [{ inventory_item_id := 77, location_id := 5, available := 4 }],
    nextId := 2, nextItemId := 100, calls := [] }

/-- A local store with one product linked to remote id 900, stock 10. -/
def exDbSale : LocalDB :=
  { products := [{ id := 1, name := "P", description := "", barcode := some "X",
                   price := 5, stockCount := 10, imageUrl := none,
                   productTypeId := 1, sku := none,
                   externalIds := [("shopify", 900)] }],
    productTypes := [{ id := 1, name := "General", description := "" }],
    sales := [], nextProductId := 2, nextTypeId := 2 }

/-- The remote counterpart of exDbSale: product 900 with inventory item
77 whose level at location 5 is 10. -/
def exRemoteSale : RemoteState :=
  { products := [{ id := 900, title := "P", body_html := "", vendor := "v",
                   product_type := some "General",
                   variants := [{ price := 5, sku := "", barcode := none,
                                  inventory_quantity := 10,
                                  inventory_item_id := 77 }],
                   image := none }],
    inventoryLevels := [{ inventory_item_id := 77, location_id := 5, available := 10 }],
    nextId := 901, nextItemId := 100, calls := [] }

/-- A product linked to shopify id 900 that also carries an entry for
another remote system. -/
def exProductLinked : Product :=
  { id := 1, name := "P", description := "old", barcode := some "X",
    price := 5, stockCount := 10, imageUrl := none,
    productTypeId := 1, sku := none,
    externalIds := [("shopify", 900), ("woo", 7)] }

/-- A local store with a product linked to shopify id 900 that also
carries an entry for another remote system. -/
def exDbLinked : LocalDB :=
  { products := [exProductLinked],
    productTypes := [{ id := 1, name := "General", description := "" }],
    sales := [], nextProductId := 2, nextTypeId := 2 }

/-- A webhook request missing the hmac header. -/
def exReqMissing : WebhookRequest :=
  { hmacHeader := none, shopDomain := some "x.myshopify.com",
    topic := some "products/update", rawBody := "\x7b\x7d", dataId := 900,
    dataTitle := "T", dataBodyHtml := "D" }

/-- A webhook request whose supplied digest does not match. -/
def exReqMismatch : WebhookRequest :=
  { hmacHeader := some "WRONG", shopDomain := some "x.myshopify.com",
    topic := some "products/update", rawBody := "\x7b\x7d", dataId := 900,
    dataTitle := "T", dataBodyHtml := "D" }

/-- An authentically signed products/update request for remote id 900
(its header equals exHmac of the stored secret and the raw body). -/
def exReqUpdate : WebhookRequest :=
  { hmacHeader := some "sec|\x7b\x7d", shopDomain := some "x.myshopify.com",
    topic := some "products/update", rawBody := "\x7b\x7d", dataId := 900,
    dataTitle := "T", dataBodyHtml := "D" }

/-- An authentically signed products/delete request for remote id 900. -/
def exReqDelete : WebhookRequest :=
  { hmacHeader := some "sec|\x7b\x7d", shopDomain := some "x.myshopify.com",
    topic := some "products/delete", rawBody := "\x7b\x7d", dataId := 900,
    dataTitle := "T", dataBodyHtml := "D" }

/-- A local store where product 1 is linked to remote id 1 (and also
carries a second-system entry) while product 2 holds barcode "B". -/
def exDbLinkedConflict : LocalDB :=
  { products := [{ id := 1, name := "P", description := "old", barcode := some "X",
                   price := 5, stockCount := 10, imageUrl := none,
                   productTypeId := 1, sku := none,
                   externalIds := [("shopify", 1), ("woo", 7)] },
                 { id := 2, name := "Q", description := "", barcode := some "B",
                   price := 5, stockCount := 2, imageUrl := none,
                   productTypeId := 1, sku := none, externalIds := [] }],
    productTypes := [{ id := 1, name := "General", description := "" }],
    sales := [], nextProductId := 3, nextTypeId := 2 }

/-- A remote product with id 900 whose variant carries the fresh
barcode "F". -/
def exRp900F : RemoteProduct :=
  { id := 900, title := "RP", body_html := "new", vendor := "v",
    product_type := some "General",
    variants := [{ price := 9, sku := "s", barcode := some "F",
                   inventory_quantity := 4, inventory_item_id := 77 }],
    image := none }

/-- The unlinked product stored in exDbB. -/
def exProductB : Product :=
  { id := 1, name := "P1", description := "", barcode := some "B",
    price := 5, stockCount := 2, imageUrl := none,
    productTypeId := 1, sku := none, externalIds := [] }

/-- An empty remote catalog about to assign id 50. -/
def exRemoteEmpty : RemoteState :=
  { products := [], inventoryLevels := [], nextId := 50, nextItemId := 100,
    calls := [] }

/-- The linked product stored in exDbSale. -/
def exProductSale : Product :=
  { id := 1, name := "P", description := "", barcode := some "X",
    price := 5, stockCount := 10, imageUrl := none,
    productTypeId := 1, sku := none, externalIds := [("shopify", 900)] }

/-! Helper lemmas. -/

theorem extLookup_extSet (system : String) (v : Nat) (m : List (String × Nat)) :
    extLookup system (extSet system v m) = some v := by
  induction m with
  | nil => simp [extSet, extLookup]
  | cons e rest ih =>
    by_cases h : e.1 = system
    · simpa [extSet, extLookup, h] using ih
    · simpa [extSet, extLookup, h] using ih

theorem getShopifyClient_isEnabled (s : IntegrationSettings)
    (h : getShopifyClient (some s) = true) : s.isEnabled = true := by
  simp [getShopifyClient] at h
  exact h.1.1

theorem find?_append_of_none {α : Type} (l1 l2 : List α) (f : α → Bool)
    (h : l1.find? f = none) : (l1 ++ l2).find? f = l2.find? f := by
  induction l1 with
  | nil => simp
  | cons a rest ih =>
    cases hfa : f a with
    | true => simp [List.find?_cons, hfa] at h
    | false =>
      simp only [List.find?_cons, hfa] at h
      simpa [List.find?_cons, hfa] using ih h

/-! Claim theorems. -/

/-- Claim C2: for every inbound webhook request whose computed digest of
the raw body (keyed by the stored shared secret) differs from the
supplied x-shopify-hmac-sha256 header value, the handler responds 401
with the signature-rejection body and the local store is returned
untouched (no product or settings record is created, updated or
deleted; the handler never writes the settings row at all). -/
theorem webhook_hmac_mismatch_rejects_without_mutation
    (hmac : String → String → String) (s : IntegrationSettings)
    (db : LocalDB) (req : WebhookRequest) (h d : String)
    (hen : s.isEnabled = true)
    (hh : req.hmacHeader = some h)
    (hd : req.shopDomain = some d)
    (hneq : hmac s.settings.apiSecret req.rawBody ≠ h) :
    webhookPOST hmac (some s) db req =
      ({ status := 401, body := WebhookBody.errorMsg "Invalid webhook signature" }, db) := by
  simp [webhookPOST, hen, hh, hd, hneq]

/-- Witness for C2 at a concrete mismatching request. -/
theorem webhook_hmac_mismatch_witness :
    webhookPOST exHmac (some exSettings) exDbSale exReqMismatch =
      ({ status := 401, body := WebhookBody.errorMsg "Invalid webhook signature" }, exDbSale) :=
  webhook_hmac_mismatch_rejects_without_mutation exHmac exSettings exDbSale exReqMismatch
    "WRONG" "x.myshopify.com" (by decide) (by decide) (by decide) (by decide)

/-- Claim C6: a verified products/update webhook overwrites exactly the
name and description of the first product linked to the notified remote
id, leaving stock, price, barcode and the external-ids mapping of that
product, and every other product, unchanged; when no product is linked
to that id, the store is unchanged. -/
theorem webhook_product_update_frame
    (hmac : String → String → String) (s : IntegrationSettings)
    (db : LocalDB) (req : WebhookRequest) (h d : String)
    (hen : s.isEnabled = true)
    (hh : req.hmacHeader = some h)
    (hd : req.shopDomain = some d)
    (hsig : hmac s.settings.apiSecret req.rawBody = h)
    (htopic : req.topic = some "products/update") :
    (webhookPOST hmac (some s) db req).1 =
      { status := 200, body := WebhookBody.success } ∧
    (db.products.find? (fun p => extLookup "shopify" p.externalIds = some req.dataId) = none →
      (webhookPOST hmac (some s) db req).2 = db) ∧
    (∀ p0, db.products.find?
        (fun p => extLookup "shopify" p.externalIds = some req.dataId) = some p0 →
      (webhookPOST hmac (some s) db req).2 =
        { db with products := db.products.map (fun q =>
            if q.id = p0.id then
              { q with name := req.dataTitle, description := req.dataBodyHtml }
            else q) }) := by
  have hmain : webhookPOST hmac (some s) db req =
      ({ status := 200, body := WebhookBody.success },
       handleProductUpdate db req.dataId req.dataTitle req.dataBodyHtml) := by
    simp [webhookPOST, hen, hh, hd, hsig, htopic]
  refine ⟨by rw [hmain], ?_, ?_⟩
  · intro hnone
    rw [hmain]
    simp [handleProductUpdate, hnone]
  · intro p0 hp0
    rw [hmain]
    simp [handleProductUpdate, hp0, LocalDB.updateProduct]

/-- Witness for C6: an authentic products/update for remote id 900
applied to a store whose product 1 is linked to 900. -/
theorem webhook_product_update_witness :
    (webhookPOST exHmac (some exSettings) exDbSale exReqUpdate).1 =
      { status := 200, body := WebhookBody.success } ∧
    (∀ p0, exDbSale.products.find?
        (fun p => extLookup "shopify" p.externalIds = some exReqUpdate.dataId) = some p0 →
      (webhookPOST exHmac (some exSettings) exDbSale exReqUpdate).2 =
        { exDbSale with products := exDbSale.products.map (fun q =>
            if q.id = p0.id then
              { q with name := exReqUpdate.dataTitle,
                       description := exReqUpdate.dataBodyHtml }
            else q) }) := by
  have hthm := webhook_product_update_frame exHmac exSettings exDbSale exReqUpdate
    "sec|\x7b\x7d" "x.myshopify.com" (by decide) (by decide) (by decide) (by decide) (by decide)
  exact ⟨hthm.1, hthm.2.2⟩

/-- Claim C7: a verified products/delete webhook for a linked remote id
clears that product's external-ids mapping while keeping the row: the
store keeps the same number of products and the unlinked row (all other
fields unchanged) is still present; on no match the store is unchanged. -/
theorem webhook_product_delete_unlinks
    (hmac : String → String → String) (s : IntegrationSettings)
    (db : LocalDB) (req : WebhookRequest) (h d : String)
    (hen : s.isEnabled = true)
    (hh : req.hmacHeader = some h)
    (hd : req.shopDomain = some d)
    (hsig : hmac s.settings.apiSecret req.rawBody = h)
    (htopic : req.topic = some "products/delete") :
    (webhookPOST hmac (some s) db req).1 =
      { status := 200, body := WebhookBody.success } ∧
    (db.products.find? (fun p => extLookup "shopify" p.externalIds = some req.dataId) = none →
      (webhookPOST hmac (some s) db req).2 = db) ∧
    (∀ p0, db.products.find?
        (fun p => extLookup "shopify" p.externalIds = some req.dataId) = some p0 →
      (webhookPOST hmac (some s) db req).2.products = db.products.map (fun q =>
          if q.id = p0.id then { q with externalIds := [] } else q) ∧
      (webhookPOST hmac (some s) db req).2.products.length = db.products.length ∧
      { p0 with externalIds := ([] : List (String × Nat)) } ∈
        (webhookPOST hmac (some s) db req).2.products) := by
  have hmain : webhookPOST hmac (some s) db req =
      ({ status := 200, body := WebhookBody.success },
       handleProductDelete db req.dataId) := by
    simp [webhookPOST, hen, hh, hd, hsig, htopic]
  refine ⟨by rw [hmain], ?_, ?_⟩
  · intro hnone
    rw [hmain]
    simp [handleProductDelete, hnone]
  · intro p0 hp0
    have hmem : p0 ∈ db.products := List.mem_of_find?_eq_some hp0
    rw [hmain]
    simp only [handleProductDelete, hp0, LocalDB.updateProduct]
    refine ⟨by simp, by simp, ?_⟩
    have : { p0 with externalIds := ([] : List (String × Nat)) } =
        (fun q => if q.id = p0.id then { q with externalIds := ([] : List (String × Nat)) } else q) p0 := by
      simp
    rw [this]
    exact List.mem_map_of_mem _ hmem

/-- Witness for C7: an authentic products/delete for remote id 900. -/
theorem webhook_product_delete_witness :
    (webhookPOST exHmac (some exSettings) exDbSale exReqDelete).1 =
      { status := 200, body := WebhookBody.success } ∧
    (∀ p0, exDbSale.products.find?
        (fun p => extLookup "shopify" p.externalIds = some exReqDelete.dataId) = some p0 →
      (webhookPOST exHmac (some exSettings) exDbSale exReqDelete).2.products =
        exDbSale.products.map (fun q =>
          if q.id = p0.id then { q with externalIds := [] } else q) ∧
      (webhookPOST exHmac (some exSettings) exDbSale exReqDelete).2.products.length =
        exDbSale.products.length ∧
      { p0 with externalIds := ([] : List (String × Nat)) } ∈
        (webhookPOST exHmac (some exSettings) exDbSale exReqDelete).2.products) := by
  have hthm := webhook_product_delete_unlinks exHmac exSettings exDbSale exReqDelete
    "sec|\x7b\x7d" "x.myshopify.com" (by decide) (by decide) (by decide) (by decide) (by decide)
  exact ⟨hthm.1, hthm.2.2⟩

/-- Counterexample to C8 as stated: a request rejected for a missing
authenticity header and one rejected for a digest mismatch receive the
same status but DIFFERENT bodies, so the two responses are
distinguishable. -/
theorem webhook_rejections_distinguishable_cex :
    (webhookPOST exHmac (some exSettings) exDbSale exReqMissing).1.status =
      (webhookPOST exHmac (some exSettings) exDbSale exReqMismatch).1.status ∧
    (webhookPOST exHmac (some exSettings) exDbSale exReqMissing).1.body ≠
      (webhookPOST exHmac (some exSettings) exDbSale exReqMismatch).1.body := by
  decide

/-- Claim C8 amended: the two rejections share the same 401 status (the
status does not reveal which check failed), but their bodies are the
distinct fixed strings "Invalid webhook request" and "Invalid webhook
signature", so the body does reveal which verification check failed. -/
theorem webhook_rejections_same_status_distinct_bodies
    (hmac : String → String → String) (s : IntegrationSettings)
    (db1 db2 : LocalDB) (req1 req2 : WebhookRequest) (h2 d2 : String)
    (hen : s.isEnabled = true)
    (hmiss : req1.hmacHeader = none ∨ req1.shopDomain = none)
    (hh2 : req2.hmacHeader = some h2)
    (hd2 : req2.shopDomain = some d2)
    (hneq : hmac s.settings.apiSecret req2.rawBody ≠ h2) :
    (webhookPOST hmac (some s) db1 req1).1.status = 401 ∧
    (webhookPOST hmac (some s) db2 req2).1.status = 401 ∧
    (webhookPOST hmac (some s) db1 req1).1.body =
      WebhookBody.errorMsg "Invalid webhook request" ∧
    (webhookPOST hmac (some s) db2 req2).1.body =
      WebhookBody.errorMsg "Invalid webhook signature" ∧
    (webhookPOST hmac (some s) db1 req1).1.body ≠
      (webhookPOST hmac (some s) db2 req2).1.body := by
  have h1 : (webhookPOST hmac (some s) db1 req1).1 =
      { status := 401, body := WebhookBody.errorMsg "Invalid webhook request" } := by
    rcases hmiss with hm | hm
    · simp [webhookPOST, hen, hm]
    · cases hh1 : req1.hmacHeader with
      | none => simp [webhookPOST, hen, hh1]
      | some v => simp [webhookPOST, hen, hh1, hm]
  have h2' : (webhookPOST hmac (some s) db2 req2).1 =
      { status := 401, body := WebhookBody.errorMsg "Invalid webhook signature" } := by
    simp [webhookPOST, hen, hh2, hd2, hneq]
  rw [h1, h2']
  refine ⟨rfl, rfl, rfl, rfl, by simp⟩

/-- Witness for the amended C8 at concrete requests. -/
theorem webhook_rejections_witness :
    (webhookPOST exHmac (some exSettings) exDbSale exReqMissing).1.status = 401 ∧
    (webhookPOST exHmac (some exSettings) exDbSale exReqMismatch).1.status = 401 ∧
    (webhookPOST exHmac (some exSettings) exDbSale exReqMissing).1.body =
      WebhookBody.errorMsg "Invalid webhook request" ∧
    (webhookPOST exHmac (some exSettings) exDbSale exReqMismatch).1.body =
      WebhookBody.errorMsg "Invalid webhook signature" ∧
    (webhookPOST exHmac (some exSettings) exDbSale exReqMissing).1.body ≠
      (webhookPOST exHmac (some exSettings) exDbSale exReqMismatch).1.body :=
  webhook_rejections_same_status_distinct_bodies exHmac exSettings exDbSale exDbSale
    exReqMissing exReqMismatch "WRONG" "x.myshopify.com"
    (by decide) (Or.inl rfl) rfl rfl (by decide)

/-- Claim C1: on an unlinked product (no "shopify" entry), a first
successful single-product sync issues exactly one remote create, the
remote catalog grows by one product, and the assigned remote id is
persisted into the product's external-ids mapping; a second sync on the
now-linked product takes the update path, issuing an update against the
stored remote id, leaving the local store untouched and creating no
second remote product. -/
theorem sync_twice_single_create
    (cfg : Option IntegrationSettings) (db : LocalDB) (remote : RemoteState)
    (p : Product)
    (hclient : getShopifyClient cfg = true)
    (hunlinked : extLookup "shopify" p.externalIds = none)
    (hin : p ∈ db.products) :
    (syncProductToShopify cfg db remote p).2.2 = SyncOutcome.created remote.nextId ∧
    (syncProductToShopify cfg db remote p).2.1.products.length =
      remote.products.length + 1 ∧
    (syncProductToShopify cfg db remote p).2.1.calls = remote.calls ++
      [RemoteCall.productCreate (mapToShopifyProduct (db.typeNameOf p) p)] ∧
    { p with externalIds := extSet "shopify" remote.nextId p.externalIds } ∈
      (syncProductToShopify cfg db remote p).1.products ∧
    extLookup "shopify" (extSet "shopify" remote.nextId p.externalIds) =
      some remote.nextId ∧
    (∀ db2 remote2 o2,
      syncProductToShopify cfg (syncProductToShopify cfg db remote p).1
        (syncProductToShopify cfg db remote p).2.1
        { p with externalIds := extSet "shopify" remote.nextId p.externalIds } =
          (db2, remote2, o2) →
      o2 = SyncOutcome.updated remote.nextId ∧
      db2 = (syncProductToShopify cfg db remote p).1 ∧
      remote2.products.length =
        (syncProductToShopify cfg db remote p).2.1.products.length ∧
      remote2.calls = (syncProductToShopify cfg db remote p).2.1.calls ++
        [RemoteCall.productUpdate remote.nextId
          (mapToShopifyProduct
            ((syncProductToShopify cfg db remote p).1.typeNameOf
              { p with externalIds := extSet "shopify" remote.nextId p.externalIds })
            { p with externalIds := extSet "shopify" remote.nextId p.externalIds })]) := by
  have hlk := extLookup_extSet "shopify" remote.nextId p.externalIds
  have hmain : syncProductToShopify cfg db remote p =
      (db.updateProduct p.id (fun q =>
        { q with externalIds := extSet "shopify" remote.nextId p.externalIds }),
       (remote.createProduct (mapToShopifyProduct (db.typeNameOf p) p)).1,
       SyncOutcome.created remote.nextId) := by
    simp [syncProductToShopify, hclient, hunlinked, RemoteState.createProduct]
  rw [hmain]
  refine ⟨rfl, ?_, ?_, ?_, hlk, ?_⟩
  · simp [RemoteState.createProduct]
  · simp [RemoteState.createProduct]
  · have : { p with externalIds := extSet "shopify" remote.nextId p.externalIds } =
        (fun q => if q.id = p.id then
          { q with externalIds := extSet "shopify" remote.nextId p.externalIds }
          else q) p := by simp
    rw [this]
    exact List.mem_map_of_mem _ hin
  · intro db2 remote2 o2 hcall
    rw [syncProductToShopify] at hcall
    simp only [hclient, hlk] at hcall
    simp only [Bool.true_eq_false, if_false] at hcall
    rw [Prod.mk.injEq, Prod.mk.injEq] at hcall
    obtain ⟨hdb2, hrem2, ho2⟩ := hcall
    subst hdb2
    subst ho2
    refine ⟨rfl, rfl, ?_, ?_⟩
    · rw [← hrem2]
      simp [RemoteState.updateProduct]
    · rw [← hrem2]
      simp [RemoteState.updateProduct]

/-- Witness for C1: syncing the unlinked product of exDbB against an
empty remote catalog creates remote product 50 and persists the link. -/
theorem sync_twice_single_create_witness :
    (syncProductToShopify (some exSettings) exDbB exRemoteEmpty exProductB).2.2 =
      SyncOutcome.created exRemoteEmpty.nextId ∧
    (syncProductToShopify (some exSettings) exDbB exRemoteEmpty exProductB).2.1.products.length =
      exRemoteEmpty.products.length + 1 ∧
    { exProductB with
        externalIds := extSet "shopify" exRemoteEmpty.nextId exProductB.externalIds } ∈
      (syncProductToShopify (some exSettings) exDbB exRemoteEmpty exProductB).1.products := by
  have hthm := sync_twice_single_create (some exSettings) exDbB exRemoteEmpty exProductB
    (by decide) (by decide) (by decide)
  exact ⟨hthm.1, hthm.2.1, hthm.2.2.2.1⟩

/-- Counterexample to C5 as stated: a sale of 3 on the linked product
with stock 10 completes (201), but the remote inventory level at the
product's location stays 10 — it is NOT set to 7 — because the sale
route invokes the full single-product sync, whose only remote call is a
product update (no inventory-level write is issued). -/
theorem sale_inventory_sync_cex :
    (salesPOST (some exSettings) exDbSale exRemoteSale 1 3).status = 201 ∧
    (salesPOST (some exSettings) exDbSale exRemoteSale 1 3).remote.inventoryLevels =
      [{ inventory_item_id := 77, location_id := 5, available := 10 }] ∧
    (salesPOST (some exSettings) exDbSale exRemoteSale 1 3).remote.calls =
      [RemoteCall.productUpdate 900
        { title := "P", body_html := "", vendor := "Default Vendor",
          product_type := "General", barcode := "X",
          variants := [{ price := 5, sku := "", inventory_quantity := 7 }],
          images := [] }] := by
  decide

/-- Claim C5 amended: after a completed sale of quantity q on a linked
product with stock s >= q, the local stock becomes s - q and the sale
row is recorded; the route then invokes the FULL single-product sync
(syncProductToShopify) on the updated product — not the inventory-only
sync — so the remote side receives exactly one product-update call
against the stored remote id whose variant payload carries inventory
quantity s - q, and the remote inventory levels are untouched by the
sale path. -/
theorem sale_triggers_full_product_sync
    (s : IntegrationSettings) (db : LocalDB) (remote : RemoteState)
    (pid : Nat) (q : Int) (p : Product) (rid : Nat)
    (hclient : getShopifyClient (some s) = true)
    (hpid : pid ≠ 0)
    (hfind : db.products.find? (fun x => x.id = pid) = some p)
    (hlinked : extLookup "shopify" p.externalIds = some rid)
    (hq : 1 ≤ q)
    (hqs : q ≤ p.stockCount) :
    (salesPOST (some s) db remote pid q).status = 201 ∧
    (salesPOST (some s) db remote pid q).db.sales =
      db.sales ++ [{ productId := pid, quantity := q, totalPrice := p.price * q }] ∧
    (salesPOST (some s) db remote pid q).db.products =
      db.products.map (fun x =>
        if x.id = pid then { x with stockCount := p.stockCount - q } else x) ∧
    (salesPOST (some s) db remote pid q).remote.calls = remote.calls ++
      [RemoteCall.productUpdate rid
        (mapToShopifyProduct (db.typeNameOf { p with stockCount := p.stockCount - q })
          { p with stockCount := p.stockCount - q })] ∧
    (mapToShopifyProduct (db.typeNameOf { p with stockCount := p.stockCount - q })
        { p with stockCount := p.stockCount - q }).variants =
      [{ price := p.price, sku := (p.sku).getD "", inventory_quantity := p.stockCount - q }] ∧
    (salesPOST (some s) db remote pid q).remote.inventoryLevels =
      remote.inventoryLevels ∧
    (salesPOST (some s) db remote pid q).remote.products.length =
      remote.products.length := by
  have hen : s.isEnabled = true := getShopifyClient_isEnabled s hclient
  have hval : ¬ (pid = 0 ∨ q < 1) := by
    push_neg
    exact ⟨hpid, by omega⟩
  have hstock : ¬ (p.stockCount < q) := not_lt.mpr hqs
  have hmain : salesPOST (some s) db remote pid q =
      { status := 201,
        db := { db with
          sales := db.sales ++
            [{ productId := pid, quantity := q, totalPrice := p.price * q }],
          products := db.products.map (fun x =>
            if x.id = pid then { x with stockCount := p.stockCount - q } else x) },
        remote := remote.updateProduct rid
          (mapToShopifyProduct (db.typeNameOf { p with stockCount := p.stockCount - q })
            { p with stockCount := p.stockCount - q }) } := by
    simp only [salesPOST, hfind, if_neg hval, if_neg hstock, hen, if_true,
      syncProductToShopify, hclient, Bool.true_eq_false, if_false,
      LocalDB.updateProduct]
    simp [hlinked, LocalDB.typeNameOf]
  rw [hmain]
  refine ⟨rfl, rfl, rfl, ?_, rfl, ?_, ?_⟩
  · simp [RemoteState.updateProduct]
  · simp [RemoteState.updateProduct]
  · simp [RemoteState.updateProduct]

/-- Witness for the amended C5 at the concrete scenario of the spec:
stock 10, sale of 3. -/
theorem sale_triggers_full_product_sync_witness :
    (salesPOST (some exSettings) exDbSale exRemoteSale 1 3).status = 201 ∧
    (salesPOST (some exSettings) exDbSale exRemoteSale 1 3).remote.inventoryLevels =
      exRemoteSale.inventoryLevels := by
  have h := sale_triggers_full_product_sync exSettings exDbSale exRemoteSale 1 3
    exProductSale 900 (by decide) (by decide) (by decide) (by decide)
    (by decide) (by decide)
  exact ⟨h.1, h.2.2.2.2.2.1⟩

/-- Each iteration of the import loop bumps exactly one counter, so the
three counters sum to the number of processed remote products. -/
theorem importLoop_counts (l : List RemoteProduct) :
    ∀ db remote, ((importLoop db remote l).2.2).imported +
      ((importLoop db remote l).2.2).updated +
      ((importLoop db remote l).2.2).failed = l.length := by
  induction l with
  | nil =>
    intro db remote
    simp [importLoop]
  | cons rp rest ih =>
    intro db remote
    simp only [importLoop]
    rcases h : importStep db remote rp with ⟨db1, remote1, o⟩
    rcases h2 : importLoop db1 remote1 rest with ⟨db2, remote2, c⟩
    have hsum := ih db1 remote1
    rw [h2] at hsum
    have hsum' : c.imported + c.updated + c.failed = rest.length := by
      simpa using hsum
    simp only [h, h2]
    cases o <;> simp [ImportCounters.bump] <;> omega

/-- Claim C9: the importer fetches a single page of at most 50 remote
products, so the reported total never exceeds 50 and the imported,
updated and failed counters always sum to that total — even when the
remote catalog holds more than 50 products. -/
theorem import_total_bounded (cfg : Option IntegrationSettings)
    (db : LocalDB) (remote : RemoteState) :
    (importProductsFromShopify cfg db remote).1.imported +
      (importProductsFromShopify cfg db remote).1.updated +
      (importProductsFromShopify cfg db remote).1.failed =
      (importProductsFromShopify cfg db remote).1.total ∧
    (importProductsFromShopify cfg db remote).1.total ≤ 50 := by
  by_cases hc : getShopifyClient cfg = false
  · simp [importProductsFromShopify, hc]
  · have hcount := importLoop_counts (remote.products.take 50) db
      (remote.logCall (RemoteCall.productList 50))
    rcases h : importLoop db (remote.logCall (RemoteCall.productList 50))
        (remote.products.take 50) with ⟨db1, remote1, c⟩
    rw [h] at hcount
    simp only [importProductsFromShopify, hc, if_false, h]
    constructor
    · exact hcount
    · rw [List.length_take]
      exact Nat.min_le_left _ _

theorem getOrCreateType_products (db : LocalDB) (n : String) :
    ((getOrCreateType db n).1).products = db.products := by
  unfold getOrCreateType
  cases h : db.productTypes.find? (fun t => t.name = n) <;> simp [h]

theorem getOrCreateType_nextProductId (db : LocalDB) (n : String) :
    ((getOrCreateType db n).1).nextProductId = db.nextProductId := by
  unfold getOrCreateType
  cases h : db.productTypes.find? (fun t => t.name = n) <;> simp [h]

theorem barcodeTaken_congr (db1 db2 : LocalDB) (b : String)
    (h : db1.products = db2.products) :
    db1.barcodeTaken b = db2.barcodeTaken b := by
  simp [LocalDB.barcodeTaken, h]

theorem barcodeTakenByOther_congr (db1 db2 : LocalDB) (pid : Nat) (b : String)
    (h : db1.products = db2.products) :
    db1.barcodeTakenByOther pid b = db2.barcodeTakenByOther pid b := by
  simp [LocalDB.barcodeTakenByOther, h]

theorem resolvedImportBarcode_congr (db1 db2 : LocalDB) (rp : RemoteProduct)
    (h : db1.products = db2.products) :
    resolvedImportBarcode db1 rp = resolvedImportBarcode db2 rp := by
  unfold resolvedImportBarcode
  cases hb : remoteBarcode rp <;>
    simp [barcodeTaken_congr db1 db2 _ h]

theorem remoteStock_products (remote : RemoteState) (rp : RemoteProduct) :
    ((remoteStock remote rp).2).products = remote.products := by
  unfold remoteStock
  cases h : rp.variants.head? with
  | none => rfl
  | some v =>
    by_cases hz : v.inventory_item_id = 0
    · simp [h, hz]
    · cases hl : remote.inventoryLevels.find?
          (fun l => l.inventory_item_id = v.inventory_item_id) <;>
        simp [h, hz, hl, RemoteState.logCall]

theorem remoteStock_inventoryLevels (remote : RemoteState) (rp : RemoteProduct) :
    ((remoteStock remote rp).2).inventoryLevels = remote.inventoryLevels := by
  unfold remoteStock
  cases h : rp.variants.head? with
  | none => rfl
  | some v =>
    by_cases hz : v.inventory_item_id = 0
    · simp [h, hz]
    · cases hl : remote.inventoryLevels.find?
          (fun l => l.inventory_item_id = v.inventory_item_id) <;>
        simp [h, hz, hl, RemoteState.logCall]

theorem remoteStock_fst_congr (r1 r2 : RemoteState) (rp : RemoteProduct)
    (h : r1.inventoryLevels = r2.inventoryLevels) :
    (remoteStock r1 rp).1 = (remoteStock r2 rp).1 := by
  unfold remoteStock
  cases hv : rp.variants.head? with
  | none => rfl
  | some v =>
    by_cases hz : v.inventory_item_id = 0
    · simp [hz]
    · rw [h]
      cases hl : r2.inventoryLevels.find?
          (fun l => l.inventory_item_id = v.inventory_item_id) <;> simp [hz, hl]

/-- Create-path shape of one import iteration: with no local match and
the resolved barcode free, the iteration appends exactly one product
carrying that barcode and the one-entry external-ids mapping, and is
counted imported. -/
theorem importStep_create (db : LocalDB) (remote : RemoteState) (rp : RemoteProduct)
    (hnomatch : db.products.find?
      (fun p => extLookup "shopify" p.externalIds = some rp.id) = none)
    (hfree : db.barcodeTaken (resolvedImportBarcode db rp) = false) :
    ∃ p' : Product,
      importStep db remote rp =
        ({ (getOrCreateType db (orDefault rp.product_type "General")).1 with
            products := db.products ++ [p'],
            nextProductId := db.nextProductId + 1 },
         (remoteStock remote rp).2, ImportOutcome.imported) ∧
      p'.barcode = some (resolvedImportBarcode db rp) ∧
      p'.externalIds = [("shopify", rp.id)] ∧
      p'.id = db.nextProductId := by
  have hprod := getOrCreateType_products db (orDefault rp.product_type "General")
  have hnext := getOrCreateType_nextProductId db (orDefault rp.product_type "General")
  have hres := resolvedImportBarcode_congr
    (getOrCreateType db (orDefault rp.product_type "General")).1 db rp hprod
  have htaken := barcodeTaken_congr
    (getOrCreateType db (orDefault rp.product_type "General")).1 db
    (resolvedImportBarcode db rp) hprod
  refine ⟨{ id := db.nextProductId, name := rp.title, description := rp.body_html,
            barcode := some (resolvedImportBarcode db rp),
            price := remotePrice rp,
            stockCount := (remoteStock remote rp).1,
            imageUrl := rp.image,
            productTypeId := (getOrCreateType db (orDefault rp.product_type "General")).2,
            sku := none,
            externalIds := [("shopify", rp.id)] }, ?_, rfl, rfl, rfl⟩
  simp only [importStep, hnomatch]
  rw [hres, htaken, hfree]
  simp [hprod, hnext, hres]

/-- Update-path shape of one import iteration: with a matched product
and no barcode-uniqueness violation, the iteration overwrites the
match's descriptive fields and resets its external-ids to the one-entry
shopify mapping, and is counted updated. -/
theorem importStep_update (db : LocalDB) (remote : RemoteState)
    (rp : RemoteProduct) (p0 : Product)
    (hmatch : db.products.find?
      (fun p => extLookup "shopify" p.externalIds = some rp.id) = some p0)
    (hnoconf : ∀ b, remoteBarcode rp = some b →
      db.barcodeTakenByOther p0.id b = false) :
    importStep db remote rp =
      ({ (getOrCreateType db (orDefault rp.product_type "General")).1 with
          products := db.products.map (fun q =>
            if q.id = p0.id then
              { q with name := rp.title, description := rp.body_html,
                       price := remotePrice rp,
                       stockCount := (remoteStock remote rp).1,
                       barcode := remoteBarcode rp,
                       externalIds := [("shopify", rp.id)] }
            else q) },
       (remoteStock remote rp).2, ImportOutcome.updated) := by
  have hprod := getOrCreateType_products db (orDefault rp.product_type "General")
  simp only [importStep, hmatch]
  cases hb : remoteBarcode rp with
  | none => simp [hb, LocalDB.updateProduct, hprod]
  | some b =>
    have hconf := hnoconf b hb
    have hconf1 : ((getOrCreateType db (orDefault rp.product_type "General")).1).barcodeTakenByOther
        p0.id b = false := by
      rw [barcodeTakenByOther_congr _ db _ _ hprod]
      exact hconf
    simp [hb, hconf1, LocalDB.updateProduct, hprod]

/-- The import loop on a one-product page is a single iteration. -/
theorem importLoop_singleton (db : LocalDB) (remote : RemoteState)
    (rp : RemoteProduct) :
    importLoop db remote [rp] =
      ((importStep db remote rp).1, (importStep db remote rp).2.1,
       ImportCounters.bump { imported := 0, updated := 0, failed := 0 }
         (importStep db remote rp).2.2) := by
  rcases h : importStep db remote rp with ⟨a, b, o⟩
  simp [importLoop, h]

/-- The importer on a one-product remote catalog: one logged list call
and one iteration. -/
theorem import_singleton (cfg : Option IntegrationSettings) (db : LocalDB)
    (remote : RemoteState) (rp : RemoteProduct)
    (hclient : getShopifyClient cfg = true)
    (hpage : remote.products = [rp]) :
    importProductsFromShopify cfg db remote =
      ({ success := true, total := 1,
         imported := (ImportCounters.bump { imported := 0, updated := 0, failed := 0 }
           (importStep db (remote.logCall (RemoteCall.productList 50)) rp).2.2).imported,
         updated := (ImportCounters.bump { imported := 0, updated := 0, failed := 0 }
           (importStep db (remote.logCall (RemoteCall.productList 50)) rp).2.2).updated,
         failed := (ImportCounters.bump { imported := 0, updated := 0, failed := 0 }
           (importStep db (remote.logCall (RemoteCall.productList 50)) rp).2.2).failed },
       (importStep db (remote.logCall (RemoteCall.productList 50)) rp).1,
       (importStep db (remote.logCall (RemoteCall.productList 50)) rp).2.1) := by
  have hcf : ¬ (getShopifyClient cfg = false) := by simp [hclient]
  have htake : remote.products.take 50 = [rp] := by
    rw [hpage]
    exact List.take_of_length_le (by simp)
  simp only [importProductsFromShopify, if_neg hcf, htake, importLoop_singleton]
  simp

/-- Claim C3 amended: importing a remote product that matches no local
product, whose (non-empty) barcode no local product holds — or, when it
has no barcode, whose synthesized barcode is free — creates exactly one
local product (imported = 1), and re-running the import with the remote
catalog unchanged matches that product by its stored remote id and
counts it as updated, not imported, with the local product count
unchanged.  (Without the freshness proviso the second run can fail
instead of update: the barcode written back collides with the product
that forced the first-run suffix.) -/
theorem import_rerun_counts_updated
    (cfg : Option IntegrationSettings) (db : LocalDB) (remote : RemoteState)
    (rp : RemoteProduct)
    (hclient : getShopifyClient cfg = true)
    (hpage : remote.products = [rp])
    (hnomatch : db.products.find?
      (fun p => extLookup "shopify" p.externalIds = some rp.id) = none)
    (hfresh1 : ∀ b, remoteBarcode rp = some b → db.barcodeTaken b = false)
    (hfresh2 : remoteBarcode rp = none →
      db.barcodeTaken ("shopify-" ++ Nat.repr rp.id) = false) :
    (importProductsFromShopify cfg db remote).1 =
      { success := true, total := 1, imported := 1, updated := 0, failed := 0 } ∧
    (importProductsFromShopify cfg db remote).2.1.products.length =
      db.products.length + 1 ∧
    (importProductsFromShopify cfg (importProductsFromShopify cfg db remote).2.1
        (importProductsFromShopify cfg db remote).2.2).1 =
      { success := true, total := 1, imported := 0, updated := 1, failed := 0 } ∧
    (importProductsFromShopify cfg (importProductsFromShopify cfg db remote).2.1
        (importProductsFromShopify cfg db remote).2.2).2.1.products.length =
      (importProductsFromShopify cfg db remote).2.1.products.length := by
  have hfree : db.barcodeTaken (resolvedImportBarcode db rp) = false := by
    unfold resolvedImportBarcode
    cases hb : remoteBarcode rp with
    | none => simpa using hfresh2 hb
    | some b => simp [hfresh1 b hb]
  obtain ⟨p', hstep, hbar, hext, hid⟩ :=
    importStep_create db (remote.logCall (RemoteCall.productList 50)) rp hnomatch hfree
  have hrun1 := import_singleton cfg db remote rp hclient hpage
  rw [hstep] at hrun1
  have hpageA : ((remoteStock (remote.logCall (RemoteCall.productList 50)) rp).2).products =
      [rp] := by
    rw [remoteStock_products]
    simpa [RemoteState.logCall] using hpage
  have hdpA : ({ (getOrCreateType db (orDefault rp.product_type "General")).1 with
      products := db.products ++ [p'],
      nextProductId := db.nextProductId + 1 : LocalDB }).products =
      db.products ++ [p'] := rfl
  have hpredp : decide (extLookup "shopify" p'.externalIds = some rp.id) = true := by
    simp [hext, extLookup]
  have hmatchA : ({ (getOrCreateType db (orDefault rp.product_type "General")).1 with
      products := db.products ++ [p'],
      nextProductId := db.nextProductId + 1 : LocalDB }).products.find?
        (fun p => extLookup "shopify" p.externalIds = some rp.id) = some p' := by
    rw [hdpA, find?_append_of_none _ _ _ hnomatch]
    exact List.find?_cons_of_pos _ hpredp
  have hnoconfA : ∀ b, remoteBarcode rp = some b →
      ({ (getOrCreateType db (orDefault rp.product_type "General")).1 with
          products := db.products ++ [p'],
          nextProductId := db.nextProductId + 1 : LocalDB }).barcodeTakenByOther
        p'.id b = false := by
    intro b hb
    have htk := hfresh1 b hb
    simp only [LocalDB.barcodeTaken, List.any_eq_false, decide_eq_true_eq] at htk
    simp only [LocalDB.barcodeTakenByOther, hdpA, List.any_eq_false,
      decide_eq_true_eq]
    intro q hq
    rcases List.mem_append.mp hq with hql | hqr
    · exact fun hconj => htk q hql hconj.2
    · have : q = p' := by simpa using hqr
      subst this
      exact fun hconj => hconj.1 rfl
  have hstepA := importStep_update
    ({ (getOrCreateType db (orDefault rp.product_type "General")).1 with
        products := db.products ++ [p'],
        nextProductId := db.nextProductId + 1 : LocalDB })
    (((remoteStock (remote.logCall (RemoteCall.productList 50)) rp).2).logCall
      (RemoteCall.productList 50)) rp p' hmatchA hnoconfA
  have hrun2 := import_singleton cfg
    ({ (getOrCreateType db (orDefault rp.product_type "General")).1 with
        products := db.products ++ [p'],
        nextProductId := db.nextProductId + 1 : LocalDB })
    ((remoteStock (remote.logCall (RemoteCall.productList 50)) rp).2) rp
    hclient hpageA
  rw [hstepA] at hrun2
  refine ⟨?_, ?_, ?_, ?_⟩
  · rw [hrun1]
    simp [ImportCounters.bump]
  · rw [hrun1]
    simp
  · rw [hrun1]
    dsimp only
    rw [hrun2]
    simp [ImportCounters.bump]
  · rw [hrun1]
    dsimp only
    rw [hrun2]
    simp

/-- Counterexample to C3 as stated: with a local product holding
barcode "B" and a remote product (id 1) carrying the same barcode, the
first import creates the product (suffixed barcode "B-1", imported =
1), but the second run — though it matches the product by its stored
remote id and creates no duplicate — counts it as FAILED, not updated:
the update writes the barcode back to "B", which violates uniqueness
against the original holder. -/
theorem import_rerun_cex :
    (importProductsFromShopify (some exSettings) exDbB (exRemoteWith exRpB)).1 =
      { success := true, total := 1, imported := 1, updated := 0, failed := 0 } ∧
    (importProductsFromShopify (some exSettings)
        (importProductsFromShopify (some exSettings) exDbB (exRemoteWith exRpB)).2.1
        (importProductsFromShopify (some exSettings) exDbB (exRemoteWith exRpB)).2.2).1 =
      { success := true, total := 1, imported := 0, updated := 0, failed := 1 } ∧
    (importProductsFromShopify (some exSettings)
        (importProductsFromShopify (some exSettings) exDbB (exRemoteWith exRpB)).2.1
        (importProductsFromShopify (some exSettings) exDbB (exRemoteWith exRpB)).2.2).2.1.products.length =
      (importProductsFromShopify (some exSettings) exDbB (exRemoteWith exRpB)).2.1.products.length := by
  decide

/-- Witness for the amended C3: a remote product with the fresh barcode
"F" is imported once and updated (not imported) on the second run. -/
theorem import_rerun_counts_updated_witness :
    (importProductsFromShopify (some exSettings) exDbB (exRemoteWith exRpF)).1 =
      { success := true, total := 1, imported := 1, updated := 0, failed := 0 } ∧
    (importProductsFromShopify (some exSettings)
        (importProductsFromShopify (some exSettings) exDbB (exRemoteWith exRpF)).2.1
        (importProductsFromShopify (some exSettings) exDbB (exRemoteWith exRpF)).2.2).1 =
      { success := true, total := 1, imported := 0, updated := 1, failed := 0 } := by
  have h := import_rerun_counts_updated (some exSettings) exDbB (exRemoteWith exRpF)
    exRpF (by decide) (by decide) (by decide)
    (by
      intro b hb
      have hbF : b = "F" := by
        simpa [remoteBarcode, exRpF] using hb.symm
      subst hbF
      decide)
    (by
      intro hnone
      simp [remoteBarcode, exRpF] at hnone)
  exact ⟨h.1, h.2.2.1⟩

/-- With no local match and the resolved barcode free, importing a
one-product page appends exactly one product with that barcode. -/
theorem import_creates_with_resolved
    (cfg : Option IntegrationSettings) (db : LocalDB) (remote : RemoteState)
    (rp : RemoteProduct)
    (hclient : getShopifyClient cfg = true)
    (hpage : remote.products = [rp])
    (hnomatch : db.products.find?
      (fun p => extLookup "shopify" p.externalIds = some rp.id) = none)
    (hfree : db.barcodeTaken (resolvedImportBarcode db rp) = false) :
    ∃ p' : Product,
      (importProductsFromShopify cfg db remote).2.1.products = db.products ++ [p'] ∧
      p'.barcode = some (resolvedImportBarcode db rp) ∧
      p'.externalIds = [("shopify", rp.id)] ∧
      (importProductsFromShopify cfg db remote).1.imported = 1 ∧
      (importProductsFromShopify cfg db remote).1.failed = 0 := by
  obtain ⟨p', hstep, hbar, hext, hid⟩ :=
    importStep_create db (remote.logCall (RemoteCall.productList 50)) rp hnomatch hfree
  have hrun := import_singleton cfg db remote rp hclient hpage
  rw [hstep] at hrun
  refine ⟨p', ?_, hbar, hext, ?_, ?_⟩
  · rw [hrun]
  · rw [hrun]
    simp [ImportCounters.bump]
  · rw [hrun]
    simp [ImportCounters.bump]

/-- Claim C4 amended: for a remote product matching no local product,
the created barcode is resolved in three cases — verbatim when the
remote barcode is fresh; suffixed with "-" and the remote id when the
remote barcode collides with an existing local product's AND the
suffixed value is itself free; synthesized as "shopify-" and the remote
id when the remote supplied no barcode and that value is free.  In each
case no uniqueness error occurs.  (When the suffixed or synthesized
value itself collides, the create fails and the product is counted
failed — a uniqueness error the original claim rules out.) -/
theorem import_barcode_resolution
    (cfg : Option IntegrationSettings) (db : LocalDB) (remote : RemoteState)
    (rp : RemoteProduct)
    (hclient : getShopifyClient cfg = true)
    (hpage : remote.products = [rp])
    (hnomatch : db.products.find?
      (fun p => extLookup "shopify" p.externalIds = some rp.id) = none) :
    (∀ b, remoteBarcode rp = some b → db.barcodeTaken b = true →
      db.barcodeTaken (b ++ "-" ++ Nat.repr rp.id) = false →
      ∃ p' : Product,
        (importProductsFromShopify cfg db remote).2.1.products =
          db.products ++ [p'] ∧
        p'.barcode = some (b ++ "-" ++ Nat.repr rp.id) ∧
        (importProductsFromShopify cfg db remote).1.imported = 1 ∧
        (importProductsFromShopify cfg db remote).1.failed = 0) ∧
    (remoteBarcode rp = none →
      db.barcodeTaken ("shopify-" ++ Nat.repr rp.id) = false →
      ∃ p' : Product,
        (importProductsFromShopify cfg db remote).2.1.products =
          db.products ++ [p'] ∧
        p'.barcode = some ("shopify-" ++ Nat.repr rp.id) ∧
        (importProductsFromShopify cfg db remote).1.imported = 1 ∧
        (importProductsFromShopify cfg db remote).1.failed = 0) ∧
    (∀ b, remoteBarcode rp = some b → db.barcodeTaken b = false →
      ∃ p' : Product,
        (importProductsFromShopify cfg db remote).2.1.products =
          db.products ++ [p'] ∧
        p'.barcode = some b ∧
        (importProductsFromShopify cfg db remote).1.imported = 1 ∧
        (importProductsFromShopify cfg db remote).1.failed = 0) := by
  refine ⟨?_, ?_, ?_⟩
  · intro b hb htaken hsuffix
    have hres : resolvedImportBarcode db rp = b ++ "-" ++ Nat.repr rp.id := by
      unfold resolvedImportBarcode
      rw [hb]
      simp [htaken]
    obtain ⟨p', h1, h2, h3, h4, h5⟩ := import_creates_with_resolved cfg db remote rp
      hclient hpage hnomatch (by rw [hres]; exact hsuffix)
    exact ⟨p', h1, by rw [h2, hres], h4, h5⟩
  · intro hb hfree
    have hres : resolvedImportBarcode db rp = "shopify-" ++ Nat.repr rp.id := by
      unfold resolvedImportBarcode
      rw [hb]
    obtain ⟨p', h1, h2, h3, h4, h5⟩ := import_creates_with_resolved cfg db remote rp
      hclient hpage hnomatch (by rw [hres]; exact hfree)
    exact ⟨p', h1, by rw [h2, hres], h4, h5⟩
  · intro b hb hfree
    have hres : resolvedImportBarcode db rp = b := by
      unfold resolvedImportBarcode
      rw [hb]
      simp [hfree]
    obtain ⟨p', h1, h2, h3, h4, h5⟩ := import_creates_with_resolved cfg db remote rp
      hclient hpage hnomatch (by rw [hres]; exact hfree)
    exact ⟨p', h1, by rw [h2, hres], h4, h5⟩

/-- Counterexample to C4 as stated: with local barcodes "B" and "B-1"
both present and a remote product (id 1) carrying barcode "B", the
suffixed barcode "B-1" also collides, so the create raises a
uniqueness error: the product is counted failed, nothing is created. -/
theorem import_barcode_collision_cex :
    (importProductsFromShopify (some exSettings) exDbBB1 (exRemoteWith exRpB)).1.failed = 1 ∧
    (importProductsFromShopify (some exSettings) exDbBB1 (exRemoteWith exRpB)).1.imported = 0 ∧
    (importProductsFromShopify (some exSettings) exDbBB1 (exRemoteWith exRpB)).2.1.products =
      exDbBB1.products := by
  decide

/-- Witness for the amended C4 at the collision case: barcode "B" is
taken in exDbB, "B-1" is free, and the created product carries "B-1". -/
theorem import_barcode_resolution_witness :
    ∃ p' : Product,
      (importProductsFromShopify (some exSettings) exDbB (exRemoteWith exRpB)).2.1.products =
        exDbB.products ++ [p'] ∧
      p'.barcode = some ("B" ++ "-" ++ Nat.repr (1 : Nat)) ∧
      (importProductsFromShopify (some exSettings) exDbB (exRemoteWith exRpB)).1.imported = 1 ∧
      (importProductsFromShopify (some exSettings) exDbB (exRemoteWith exRpB)).1.failed = 0 := by
  have h := import_barcode_resolution (some exSettings) exDbB (exRemoteWith exRpB) exRpB
    (by decide) (by decide) (by decide)
  exact h.1 "B" (by decide) (by decide) (by decide)

/-- Claim C10 amended: when bulk import matches an already-linked local
product and the incoming barcode does not collide with a different
product's, the update step writes the matched product's external-ids
field to exactly the one-entry mapping shopify -> remote id, removing
any entries for other remote systems; the product is counted updated.
(When the incoming barcode does collide, the update fails and the prior
mapping — other systems' entries included — is preserved.) -/
theorem import_update_resets_externalIds
    (cfg : Option IntegrationSettings) (db : LocalDB) (remote : RemoteState)
    (rp : RemoteProduct) (p0 : Product)
    (hclient : getShopifyClient cfg = true)
    (hpage : remote.products = [rp])
    (hmatch : db.products.find?
      (fun p => extLookup "shopify" p.externalIds = some rp.id) = some p0)
    (hnoconf : ∀ b, remoteBarcode rp = some b →
      db.barcodeTakenByOther p0.id b = false) :
    (importProductsFromShopify cfg db remote).1.updated = 1 ∧
    (importProductsFromShopify cfg db remote).1.imported = 0 ∧
    (importProductsFromShopify cfg db remote).2.1.products =
      db.products.map (fun q =>
        if q.id = p0.id then
          { q with name := rp.title, description := rp.body_html,
                   price := remotePrice rp,
                   stockCount := (remoteStock remote rp).1,
                   barcode := remoteBarcode rp,
                   externalIds := [("shopify", rp.id)] }
        else q) ∧
    (∀ q ∈ (importProductsFromShopify cfg db remote).2.1.products,
      q.id = p0.id → q.externalIds = [("shopify", rp.id)]) := by
  have hstk : (remoteStock (remote.logCall (RemoteCall.productList 50)) rp).1 =
      (remoteStock remote rp).1 :=
    remoteStock_fst_congr _ _ rp rfl
  have hstep := importStep_update db (remote.logCall (RemoteCall.productList 50))
    rp p0 hmatch hnoconf
  have hrun := import_singleton cfg db remote rp hclient hpage
  rw [hstep] at hrun
  have hprods : (importProductsFromShopify cfg db remote).2.1.products =
      db.products.map (fun q =>
        if q.id = p0.id then
          { q with name := rp.title, description := rp.body_html,
                   price := remotePrice rp,
                   stockCount := (remoteStock remote rp).1,
                   barcode := remoteBarcode rp,
                   externalIds := [("shopify", rp.id)] }
        else q) := by
    rw [hrun]
    simp [hstk]
  refine ⟨?_, ?_, hprods, ?_⟩
  · rw [hrun]
    simp [ImportCounters.bump]
  · rw [hrun]
    simp [ImportCounters.bump]
  · intro q hq hqid
    rw [hprods] at hq
    obtain ⟨a, ha, hfa⟩ := List.mem_map.mp hq
    by_cases hid : a.id = p0.id
    · rw [if_pos hid] at hfa
      rw [← hfa]
    · rw [if_neg hid] at hfa
      subst hfa
      exact absurd hqid hid

/-- Counterexample to C10 as stated: product 1 is linked to remote id 1
and also carries a "woo" entry; the incoming barcode "B" collides with
product 2, so the update fails (counted failed) and product 1's
external-ids mapping still contains the "woo" entry — nothing was
removed. -/
theorem import_update_externalIds_cex :
    (importProductsFromShopify (some exSettings) exDbLinkedConflict
      (exRemoteWith exRpB)).1.failed = 1 ∧
    (importProductsFromShopify (some exSettings) exDbLinkedConflict
      (exRemoteWith exRpB)).1.updated = 0 ∧
    (importProductsFromShopify (some exSettings) exDbLinkedConflict
      (exRemoteWith exRpB)).2.1.products = exDbLinkedConflict.products ∧
    (∃ q ∈ (importProductsFromShopify (some exSettings) exDbLinkedConflict
      (exRemoteWith exRpB)).2.1.products,
      q.id = 1 ∧ ("woo", 7) ∈ q.externalIds) := by
  decide

/-- Witness for the amended C10: remote product 900 with fresh barcode
"F" matches the linked product of exDbLinked; after the import its
external-ids mapping is exactly the shopify entry (the "woo" entry is
gone). -/
theorem import_update_resets_externalIds_witness :
    (importProductsFromShopify (some exSettings) exDbLinked
      (exRemoteWith exRp900F)).1.updated = 1 ∧
    (∀ q ∈ (importProductsFromShopify (some exSettings) exDbLinked
        (exRemoteWith exRp900F)).2.1.products,
      q.id = exProductLinked.id → q.externalIds = [("shopify", 900)]) := by
  have h := import_update_resets_externalIds (some exSettings) exDbLinked
    (exRemoteWith exRp900F) exRp900F exProductLinked
    (by decide) (by decide) (by decide)
    (by
      intro b hb
      have hbF : b = "F" := by
        simpa [remoteBarcode, exRp900F] using hb.symm
      subst hbF
      decide)
  exact ⟨h.1, h.2.2.2⟩
